import Mathlib

/-!
Verification of the lpc8xx-hal SPI and USART-Tx driver code.

Shallow embedding of `src/spi.rs` and `src/usart/tx.rs`: register blocks
become Lean structures, register writes become functional updates, and the
side effects performed by `SPI::enable` / `SPI::disable` are additionally
recorded as an explicit effect trace so that ordering properties can be
stated.  The typestate discipline of the Rust API (phantom `Disabled` /
`Enabled` parameters) is modelled by an operation table listing every
operation of the SPI API together with the handle state it requires and the
handle state it produces, read off from the `impl` blocks of the source.

The `syscon` clock-control code (`Handle::enable_clock`,
`Handle::disable_clock`, `SpiClock`, `select_clock`) is not part of the
sources; those pieces are modelled from the spec, as marked on each
definition.
-/

namespace Lpc8xx

/-- Lifecycle states of a peripheral handle (`init_state::Disabled` /
`init_state::Enabled` in the source). -/
inductive SpiHandleState where
  | Disabled
  | Enabled
deriving DecidableEq, Repr

/-- Assignment states of a switch-matrix function handle
(`swm::state::Assigned` / `swm::state::Unassigned`). -/
inductive FunctionState where
  | Unassigned
  | Assigned
deriving DecidableEq, Repr

/-- A switch-matrix function handle, indexed by its assignment state, as in
`swm::Function<T, State>`.  Only the state index matters for the claims. -/
structure SwmFunction (s : FunctionState) where
  funcId : Nat
deriving DecidableEq, Repr

/-- `embedded_hal::spi::Polarity`. -/
inductive Polarity where
  | IdleLow
  | IdleHigh
deriving DecidableEq, Repr

/-- `embedded_hal::spi::Phase`. -/
inductive Phase where
  | CaptureOnFirstTransition
  | CaptureOnSecondTransition
deriving DecidableEq, Repr

/-- `embedded_hal::spi::Mode`. -/
structure Mode where
  polarity : Polarity
  phase : Phase
deriving DecidableEq, Repr

/-- Modelled from the spec: the clock descriptor `SpiClock<CLOCK>` lives in
`syscon::clock_source`, which is not among the sources.  Per the spec it is
an immutable value holding the selected source and the divisor; `divval` is
the `u16` divider written to the SPI `DIV` register by `enable`. -/
structure SpiClock where
  divval : Nat
  sel : Nat
deriving DecidableEq, Repr

/-- The SPI `CFG` register fields written by `SPI::enable`. -/
structure CfgReg where
  cpol : Bool
  cpha : Bool
  enable : Bool
  master : Bool
deriving DecidableEq, Repr

/-- The SPI register block (`pac::spi0::RegisterBlock`), restricted to the
registers and fields the driver code touches.  `statTxrdy`/`statRxrdy` are
the hardware-driven `STAT` flags read by the `FullDuplex` impl. -/
structure SpiRegs where
  div : Nat
  txctlLen : Nat
  cfg : CfgReg
  statTxrdy : Bool
  statRxrdy : Bool
  txdat : Nat
  rxdat : Nat
deriving DecidableEq, Repr

/-- The state touched by the SPI lifecycle operations: the peripheral's
register block, its clock gate and functional-clock selection in `SYSCON`
(modelled from the spec, since the `syscon` module is not in the sources),
and the switch-matrix pin-assignment table, which the lifecycle operations
reference but do not own. -/
structure SpiSystem where
  regs : SpiRegs
  clockEnabled : Bool
  clockSel : Nat
  pinAssignments : List (Nat × Nat)
deriving DecidableEq, Repr

/-- Side effects performed by the SPI lifecycle operations, in program
order. -/
inductive SpiEffect where
  | enableClock
  | selectClock
  | writeDiv (v : Nat)
  | writeTxctl (len : Nat)
  | writeCfg (c : CfgReg)
  | disableClock
deriving DecidableEq, Repr

/-- Whether an effect is a write to a peripheral-specific configuration
register (divider, word length, mode/polarity/enable bits), as opposed to
the shared clock-control effects. -/
def SpiEffect.isConfigWrite : SpiEffect → Bool
  | .writeDiv _ => true
  | .writeTxctl _ => true
  | .writeCfg _ => true
  | _ => false

/-- The `CFG` value computed by the closure in `SPI::enable`
(`src/spi.rs:153-166`): `cpol` high iff the mode's polarity is `IdleHigh`,
`cpha` set iff the phase is not `CaptureOnFirstTransition`, and the
`enable` and `master` bits set. -/
def cfgFromMode (mode : Mode) : CfgReg :=
  { cpol := decide (mode.polarity = Polarity.IdleHigh)
    cpha := !decide (mode.phase = Phase.CaptureOnFirstTransition)
    enable := true
    master := true }

/-- `SPI::enable` (`src/spi.rs:122-172`), as a function on the system state
that also returns the trace of effects in program order:
(1) `syscon.enable_clock(&self.spi)` — modelled from the spec: ungate the
peripheral's clock line; (2) `clock.select_clock(syscon)` — modelled from
the spec: select the functional clock per the descriptor; (3) write `DIV`
with the descriptor's divider; (4) write `TXCTL` with length 7 (8-bit
frames); (5) write `CFG` from the mode. -/
def spiEnable (clock : SpiClock) (mode : Mode) (s : SpiSystem) :
    SpiSystem × List SpiEffect :=
  let s1 := { s with clockEnabled := true }
  let s2 := { s1 with clockSel := clock.sel }
  let s3 := { s2 with regs := { s2.regs with div := clock.divval % 65536 } }
  let s4 := { s3 with regs := { s3.regs with txctlLen := 7 } }
  let s5 := { s4 with regs := { s4.regs with cfg := cfgFromMode mode } }
  (s5,
    [SpiEffect.enableClock, SpiEffect.selectClock,
     SpiEffect.writeDiv (clock.divval % 65536), SpiEffect.writeTxctl 7,
     SpiEffect.writeCfg (cfgFromMode mode)])

/-- `SPI::disable` (`src/spi.rs:190-200`): its only effect is
`syscon.disable_clock(&self.spi)` — modelled from the spec: gate the
peripheral's clock line off. -/
def spiDisable (s : SpiSystem) : SpiSystem × List SpiEffect :=
  ({ s with clockEnabled := false }, [SpiEffect.disableClock])

/-- `SPI::free` (`src/spi.rs:216-218`): returns the raw register block and
performs no writes; the system state is returned unchanged. -/
def spiFree (s : SpiSystem) : SpiRegs × SpiSystem :=
  (s.regs, s)

/-- `nb::Error<E>`: either would-block or an operation-specific error. -/
inductive NbError (ε : Type) where
  | wouldBlock
  | other (e : ε)
deriving DecidableEq, Repr

/-- `FullDuplex::read` for `SPI<I, Enabled>` (`src/spi.rs:224-230`):
returns the low 8 bits of `RXDAT` when `STAT.RXRDY` is set, otherwise
would-block; never writes a register. -/
def spiRead (r : SpiRegs) : Except (NbError Unit) Nat × SpiRegs :=
  if r.statRxrdy then
    (Except.ok (r.rxdat % 256), r)
  else
    (Except.error NbError.wouldBlock, r)

/-- `FullDuplex::send` for `SPI<I, Enabled>` (`src/spi.rs:232-241`): when
`STAT.TXRDY` is set, writes the word (a `u8`, zero-extended to the 16-bit
`TXDAT.DATA` field) and succeeds; otherwise would-block with no register
write. -/
def spiSend (word : Nat) (r : SpiRegs) : Except (NbError Unit) Unit × SpiRegs :=
  if r.statTxrdy then
    (Except.ok (), { r with txdat := word % 256 })
  else
    (Except.error NbError.wouldBlock, r)

/-- The operations of the SPI typed API, read off from the `impl` blocks of
`src/spi.rs`.  `enable` carries the arguments its Rust signature demands: a
clock descriptor, a mode, and the SCK/MOSI/MISO function handles, each of
which must be in the `Assigned` state. -/
inductive ApiOp where
  | new
  | enable (clock : SpiClock) (mode : Mode)
      (sck : SwmFunction FunctionState.Assigned)
      (mosi : SwmFunction FunctionState.Assigned)
      (miso : SwmFunction FunctionState.Assigned)
  | disable
  | free
  | read
  | send (word : Nat)
deriving DecidableEq, Repr

/-- The handle state on which each operation is defined, per the `impl`
block it lives in: `none` means the operation either takes no handle
(`new` is an associated constructor taking the raw peripheral) or is
generic over the state (`free`, from `impl<I, State>`). -/
def requiredState : ApiOp → Option SpiHandleState
  | .new => none
  | .enable _ _ _ _ _ => some SpiHandleState.Disabled
  | .disable => some SpiHandleState.Enabled
  | .free => none
  | .read => some SpiHandleState.Enabled
  | .send _ => some SpiHandleState.Enabled

/-- Whether an operation is callable on a handle in the given state:
`free` is available in every state (`impl<I, State> SPI<I, State>`);
`new` constructs the initial `Disabled` handle and takes no handle. -/
def availableIn (op : ApiOp) (s : SpiHandleState) : Bool :=
  match requiredState op with
  | none => true
  | some s0 => s = s0

/-- The state of the handle each operation produces: `new` and `disable`
produce `Disabled` handles, `enable` produces an `Enabled` handle, `free`
surrenders the handle for the raw register block, and `read`/`send` borrow
the handle without producing a new one. -/
def producedState : ApiOp → Option SpiHandleState
  | .new => some SpiHandleState.Disabled
  | .enable _ _ _ _ _ => some SpiHandleState.Enabled
  | .disable => some SpiHandleState.Disabled
  | .free => none
  | .read => none
  | .send _ => none

/-- The USART register block (`pac::usart0::RegisterBlock`), restricted to
what `usart/tx.rs` touches: the hardware-driven `STAT.TXRDY` and
`STAT.TXIDLE` flags, the `TXDAT` data register, and the TXRDY
interrupt-enable bit. -/
structure UsartRegs where
  statTxrdy : Bool
  statTxidle : Bool
  txdat : Nat
  intenTxrdy : Bool
deriving DecidableEq, Repr

/-- `Write::write` for `Tx<I, Enabled>` (`src/usart/tx.rs:71-85`): if
`STAT.TXRDY` is clear, returns would-block without touching any register;
otherwise writes the word (a `u8`, zero-extended into the 16-bit
`TXDAT.TXDAT` field) and succeeds.  The error type is `Void`, modelled by
`Empty`. -/
def txWrite (word : Nat) (r : UsartRegs) :
    Except (NbError Empty) Unit × UsartRegs :=
  if !r.statTxrdy then
    (Except.error NbError.wouldBlock, r)
  else
    (Except.ok (), { r with txdat := word % 256 })

/-- `Write::flush` for `Tx<I, Enabled>` (`src/usart/tx.rs:87-96`): if
`STAT.TXIDLE` is clear, returns would-block; otherwise succeeds.  It only
reads a register, so the register state is unchanged in both cases. -/
def txFlush (r : UsartRegs) : Except (NbError Empty) Unit × UsartRegs :=
  if !r.statTxidle then
    (Except.error NbError.wouldBlock, r)
  else
    (Except.ok (), r)

/-- `dma::Dest::wait` for `Tx<I, Enabled>` (`src/usart/tx.rs:123-125`): its
body is exactly `self.flush()`. -/
def txWait (r : UsartRegs) : Except (NbError Empty) Unit × UsartRegs :=
  txFlush r

/-- A hardware environment: the values of the `STAT.TXRDY` and `STAT.TXIDLE`
flags observed at the t-th register read.  The driver has no control over
these; they are inputs from the hardware. -/
def HwEnv : Type := Nat → Bool × Bool

/-- Refresh the hardware-driven `STAT` flags from the environment at time
`t` before an attempt, as the hardware does between two polls. -/
def pollStat (env : HwEnv) (t : Nat) (r : UsartRegs) : UsartRegs :=
  { r with statTxrdy := (env t).1, statTxidle := (env t).2 }

/-- `nb::block!(self.write(word))`: retry `txWrite` until it stops
returning would-block, advancing hardware time by one step per attempt.
Fuel bounds the number of attempts; `none` means the loop was still
blocking when the fuel ran out. -/
def blockTxWrite (env : HwEnv) (word : Nat) :
    Nat → Nat → UsartRegs → Option (Except Empty Unit × Nat × UsartRegs)
  | 0, _, _ => none
  | fuel + 1, t, r =>
    match txWrite word (pollStat env t r) with
    | (Except.ok u, r2) => some (Except.ok u, t + 1, r2)
    | (Except.error NbError.wouldBlock, r2) =>
        blockTxWrite env word fuel (t + 1) r2
    | (Except.error (NbError.other e), r2) => some (Except.error e, t + 1, r2)

/-- `nb::block!(self.flush())`: retry `txFlush` until it stops returning
would-block. -/
def blockTxFlush (env : HwEnv) :
    Nat → Nat → UsartRegs → Option (Except Empty Unit × Nat × UsartRegs)
  | 0, _, _ => none
  | fuel + 1, t, r =>
    match txFlush (pollStat env t r) with
    | (Except.ok u, r2) => some (Except.ok u, t + 1, r2)
    | (Except.error NbError.wouldBlock, r2) => blockTxFlush env fuel (t + 1) r2
    | (Except.error (NbError.other e), r2) => some (Except.error e, t + 1, r2)

/-- `bwrite_all` from `embedded_hal::blocking::serial::write::Default`,
which `Tx` opts into (`src/usart/tx.rs:99-100`): for each word of the
buffer, `block!(self.write(*word))?`. -/
def bwriteAll (env : HwEnv) :
    List Nat → Nat → Nat → UsartRegs →
    Option (Except Empty Unit × Nat × UsartRegs)
  | [], _, t, r => some (Except.ok (), t, r)
  | word :: rest, fuel, t, r =>
    match blockTxWrite env word fuel t r with
    | none => none
    | some (Except.error e, t2, r2) => some (Except.error e, t2, r2)
    | some (Except.ok _, t2, r2) => bwriteAll env rest fuel t2 r2

/-- `core::fmt::Error`, the error type of `fmt::Write::write_str`. -/
inductive FmtError where
  | mk
deriving DecidableEq, Repr

/-- `fmt::Write::write_str` for `Tx<I, Enabled>` (`src/usart/tx.rs:107-114`):
`self.bwrite_all(s.as_bytes()).map_err(|_| fmt::Error)?`, then
`block!(self.flush()).map_err(|_| fmt::Error)?`, then `Ok(())`.  The string
is modelled as its byte list; `none` means some blocking loop had not yet
terminated within the fuel. -/
def writeStr (env : HwEnv) (bytes : List Nat) (fuel t : Nat) (r : UsartRegs) :
    Option (Except FmtError Unit × Nat × UsartRegs) :=
  match bwriteAll env bytes fuel t r with
  | none => none
  | some (Except.error e, t2, r2) =>
      some (Except.error ((fun _ => FmtError.mk) e), t2, r2)
  | some (Except.ok _, t2, r2) =>
    match blockTxFlush env fuel t2 r2 with
    | none => none
    | some (Except.error e, t3, r3) =>
        some (Except.error ((fun _ => FmtError.mk) e), t3, r3)
    | some (Except.ok _, t3, r3) => some (Except.ok (), t3, r3)

/-! ## Theorems -/

/-- C1: an Enabled handle is produced only by `enable`, which is defined
only on a Disabled handle and takes a clock descriptor and Assigned
SCK/MOSI/MISO function handles; `enable` always produces an Enabled handle
and no other operation of the API produces one. -/
theorem enabled_handle_only_from_enable :
    (∀ op : ApiOp, producedState op = some SpiHandleState.Enabled →
      requiredState op = some SpiHandleState.Disabled ∧
      ∃ (clock : SpiClock) (mode : Mode)
        (sck mosi miso : SwmFunction FunctionState.Assigned),
        op = ApiOp.enable clock mode sck mosi miso) ∧
    (∀ (clock : SpiClock) (mode : Mode)
      (sck mosi miso : SwmFunction FunctionState.Assigned),
      producedState (ApiOp.enable clock mode sck mosi miso) =
        some SpiHandleState.Enabled) := by
  constructor
  · intro op h
    cases op <;> simp_all [producedState, requiredState]
  · intro clock mode sck mosi miso
    rfl

/-- Witness for C1 at a concrete `enable` invocation. -/
theorem enabled_handle_only_from_enable_witness :
    producedState
        (ApiOp.enable ⟨4, 1⟩ ⟨Polarity.IdleLow, Phase.CaptureOnFirstTransition⟩
          ⟨13⟩ ⟨14⟩ ⟨15⟩) = some SpiHandleState.Enabled ∧
      (requiredState
          (ApiOp.enable ⟨4, 1⟩
            ⟨Polarity.IdleLow, Phase.CaptureOnFirstTransition⟩
            ⟨13⟩ ⟨14⟩ ⟨15⟩) = some SpiHandleState.Disabled ∧
        ∃ (clock : SpiClock) (mode : Mode)
          (sck mosi miso : SwmFunction FunctionState.Assigned),
          ApiOp.enable ⟨4, 1⟩ ⟨Polarity.IdleLow, Phase.CaptureOnFirstTransition⟩
              ⟨13⟩ ⟨14⟩ ⟨15⟩ = ApiOp.enable clock mode sck mosi miso) :=
  ⟨rfl, enabled_handle_only_from_enable.1 _ rfl⟩

/-- C2: in the effect trace of `enable`, the clock ungate comes first, the
functional-clock selection second, and every configuration-register write
(divider, word length, mode/enable bits) comes strictly after both. -/
theorem enable_effect_order (clock : SpiClock) (mode : Mode) (s : SpiSystem) :
    (spiEnable clock mode s).2.get? 0 = some SpiEffect.enableClock ∧
    (spiEnable clock mode s).2.get? 1 = some SpiEffect.selectClock ∧
    ∀ i e, (spiEnable clock mode s).2.get? i = some e →
      e.isConfigWrite = true → 2 ≤ i := by
  refine ⟨rfl, rfl, ?_⟩
  intro i e h hc
  match i with
  | 0 =>
    simp [spiEnable] at h
    rw [← h] at hc
    cases hc
  | 1 =>
    simp [spiEnable] at h
    rw [← h] at hc
    cases hc
  | n + 2 => omega

/-- Witness for C2: on a concrete enable, the divider write sits at index 2,
behind the two clock effects. -/
theorem enable_effect_order_witness :
    (spiEnable ⟨4, 1⟩ ⟨Polarity.IdleLow, Phase.CaptureOnFirstTransition⟩
          ⟨⟨0, 0, ⟨false, false, false, false⟩, false, false, 0, 0⟩,
            false, 0, []⟩).2.get? 2 = some (SpiEffect.writeDiv 4) ∧
      2 ≤ 2 :=
  ⟨rfl,
    (enable_effect_order ⟨4, 1⟩ ⟨Polarity.IdleLow, Phase.CaptureOnFirstTransition⟩
          ⟨⟨0, 0, ⟨false, false, false, false⟩, false, false, 0, 0⟩,
            false, 0, []⟩).2.2 2 (SpiEffect.writeDiv 4) rfl rfl⟩

/-- C3: `disable` gates the clock off, produces a Disabled handle, and
changes nothing else: registers, pin assignments and the clock selection
are untouched, and its only effect is the clock gate. -/
theorem disable_gates_clock_and_nothing_else (s : SpiSystem) :
    (spiDisable s).1.clockEnabled = false ∧
    (spiDisable s).1.regs = s.regs ∧
    (spiDisable s).1.pinAssignments = s.pinAssignments ∧
    (spiDisable s).1.clockSel = s.clockSel ∧
    (spiDisable s).2 = [SpiEffect.disableClock] ∧
    requiredState ApiOp.disable = some SpiHandleState.Enabled ∧
    producedState ApiOp.disable = some SpiHandleState.Disabled :=
  ⟨rfl, rfl, rfl, rfl, rfl, rfl, rfl⟩

/-- C4: `free` is available on a handle in any state, returns the raw
register block, and performs no register write or state change. -/
theorem free_any_state_no_effect :
    (∀ st : SpiHandleState, availableIn ApiOp.free st = true) ∧
    (∀ s : SpiSystem, spiFree s = (s.regs, s)) :=
  ⟨fun _ => rfl, fun _ => rfl⟩

/-- C5: enable → disable → enable with the same clock descriptor and mode
restores exactly the system state after the first enable (registers, clock
gate, clock selection and pin assignments). -/
theorem enable_disable_enable_roundtrip (clock : SpiClock) (mode : Mode)
    (s : SpiSystem) :
    (spiEnable clock mode (spiDisable (spiEnable clock mode s).1).1).1 =
      (spiEnable clock mode s).1 := by
  simp [spiEnable, spiDisable]

/-- C6: each non-blocking operation (SPI `send`/`read`, USART Tx
`write`/`flush`) would-block exactly when its hardware-ready flag is clear,
leaves the registers untouched in the would-block case, and succeeds when
the flag is set. -/
theorem nonblocking_would_block_iff_not_ready (r : SpiRegs) (u : UsartRegs)
    (word wu : Nat) :
    ((spiSend word r).1 = Except.error NbError.wouldBlock ↔
      r.statTxrdy = false) ∧
    (r.statTxrdy = false → (spiSend word r).2 = r) ∧
    (r.statTxrdy = true → (spiSend word r).1 = Except.ok ()) ∧
    ((spiRead r).1 = Except.error NbError.wouldBlock ↔
      r.statRxrdy = false) ∧
    (spiRead r).2 = r ∧
    (r.statRxrdy = true → (spiRead r).1 = Except.ok (r.rxdat % 256)) ∧
    ((txWrite wu u).1 = Except.error NbError.wouldBlock ↔
      u.statTxrdy = false) ∧
    (u.statTxrdy = false → (txWrite wu u).2 = u) ∧
    (u.statTxrdy = true → (txWrite wu u).1 = Except.ok ()) ∧
    ((txFlush u).1 = Except.error NbError.wouldBlock ↔
      u.statTxidle = false) ∧
    (txFlush u).2 = u ∧
    (u.statTxidle = true → (txFlush u).1 = Except.ok ()) := by
  cases h1 : r.statTxrdy <;> cases h2 : r.statRxrdy <;>
    cases h3 : u.statTxrdy <;> cases h4 : u.statTxidle <;>
    simp [spiSend, spiRead, txWrite, txFlush, h1, h2, h3, h4]

/-- Witness for C6: with the transmit-ready flag set, a concrete send
succeeds. -/
theorem nonblocking_would_block_iff_not_ready_witness :
    (⟨0, 7, ⟨false, false, true, true⟩, true, false, 0, 0⟩ :
        SpiRegs).statTxrdy = true ∧
      (spiSend 42
          ⟨0, 7, ⟨false, false, true, true⟩, true, false, 0, 0⟩).1 =
        Except.ok () :=
  ⟨rfl,
    (nonblocking_would_block_iff_not_ready
        ⟨0, 7, ⟨false, false, true, true⟩, true, false, 0, 0⟩
        ⟨true, true, 0, false⟩ 42 0).2.2.1 rfl⟩

/-- C7: after `enable` with mode `m`, the CFG register reflects `m`
exactly: CPOL set iff the polarity is IdleHigh, CPHA set iff the phase is
not CaptureOnFirstTransition, and the enable and master bits set. -/
theorem enable_cfg_reflects_mode (clock : SpiClock) (mode : Mode)
    (s : SpiSystem) :
    ((spiEnable clock mode s).1.regs.cfg.cpol = true ↔
      mode.polarity = Polarity.IdleHigh) ∧
    ((spiEnable clock mode s).1.regs.cfg.cpha = true ↔
      mode.phase ≠ Phase.CaptureOnFirstTransition) ∧
    (spiEnable clock mode s).1.regs.cfg.enable = true ∧
    (spiEnable clock mode s).1.regs.cfg.master = true := by
  obtain ⟨pol, ph⟩ := mode
  cases pol <;> cases ph <;> simp [spiEnable, cfgFromMode]

/-- Witness for C7: a concrete MODE_3-style mode sets both CPOL and
CPHA. -/
theorem enable_cfg_reflects_mode_witness :
    (⟨Polarity.IdleHigh, Phase.CaptureOnSecondTransition⟩ :
        Mode).polarity = Polarity.IdleHigh ∧
      (spiEnable ⟨4, 1⟩ ⟨Polarity.IdleHigh, Phase.CaptureOnSecondTransition⟩
          ⟨⟨0, 0, ⟨false, false, false, false⟩, false, false, 0, 0⟩,
            false, 0, []⟩).1.regs.cfg.cpol = true :=
  ⟨rfl,
    (enable_cfg_reflects_mode ⟨4, 1⟩
          ⟨Polarity.IdleHigh, Phase.CaptureOnSecondTransition⟩
          ⟨⟨0, 0, ⟨false, false, false, false⟩, false, false, 0, 0⟩,
            false, 0, []⟩).1.mpr rfl⟩

/-- C8: `enable` writes the value 7 into the TXCTL length field for every
input; the frame length is fixed at 8 bits and not configurable through
`enable`'s parameters. -/
theorem enable_fixes_word_length (clock : SpiClock) (mode : Mode)
    (s : SpiSystem) :
    (spiEnable clock mode s).1.regs.txctlLen = 7 ∧
    (spiEnable clock mode s).2.get? 3 = some (SpiEffect.writeTxctl 7) :=
  ⟨rfl, rfl⟩

/-- Every value of the uninhabited-error result type is a success; this is
the Rust fact that `Result<(), Void>` has only the `Ok(())` value. -/
theorem except_empty_unit_eq_ok (x : Except Empty Unit) :
    x = Except.ok () := by
  cases x with
  | ok u => cases u; rfl
  | error e => exact e.elim

/-- C9: whenever `write_str` returns (all blocking loops terminated), the
result is `Ok`; the `fmt::Error` branches are unreachable because the
underlying write and flush have the uninhabited error type `Void`. -/
theorem write_str_never_fmt_error (env : HwEnv) (bytes : List Nat)
    (fuel t : Nat) (r : UsartRegs) (res : Except FmtError Unit) (t2 : Nat)
    (r2 : UsartRegs)
    (h : writeStr env bytes fuel t r = some (res, t2, r2)) :
    res = Except.ok () := by
  unfold writeStr at h
  rcases hb : bwriteAll env bytes fuel t r with _ | ⟨x, t3, r3⟩
  · rw [hb] at h
    cases h
  · rw [hb, except_empty_unit_eq_ok x] at h
    dsimp only at h
    rcases hf : blockTxFlush env fuel t3 r3 with _ | ⟨y, t4, r4⟩
    · rw [hf] at h
      cases h
    · rw [hf, except_empty_unit_eq_ok y] at h
      dsimp only at h
      simp only [Option.some.injEq, Prod.mk.injEq] at h
      exact h.1.symm

/-- Witness for C9: a concrete two-byte write with the hardware always
ready returns `Ok` after three polls. -/
theorem write_str_never_fmt_error_witness :
    writeStr (fun _ => (true, true)) [104, 105] 5 0 ⟨true, true, 0, false⟩ =
        some (Except.ok (), 3, ⟨true, true, 105, false⟩) ∧
      (Except.ok () : Except FmtError Unit) = Except.ok () :=
  ⟨rfl,
    write_str_never_fmt_error (fun _ => (true, true)) [104, 105] 5 0
      ⟨true, true, 0, false⟩ (Except.ok ()) 3 ⟨true, true, 105, false⟩ rfl⟩

/-- C10: the DMA destination operation `wait` is behaviorally identical to
`flush`: same result and same register effect on every hardware state. -/
theorem wait_equals_flush (r : UsartRegs) : txWait r = txFlush r := rfl

end Lpc8xx
